import Mathlib

/-!
Shallow embedding of the data-preparation, training-orchestration and
prediction pipeline of src/predictor.jsx (a single-file React stock
price predictor).

Modelling conventions:
  - JavaScript floating point is modelled by exact rationals where the
    source computes only with field operations, and by real numbers in the
    mock engine, where the source calls Math.exp and Math.sin.
  - Math.random() is modelled by an explicit stream r : Nat -> Real whose
    values the caller assumes to lie in the interval from 0 inclusive to 1
    exclusive.
  - Calendar dates are modelled by integer day numbers; adding one
    calendar day is adding 1.
  - React useState setters are modelled by explicit record updates on
    AppState; the IndexedDB entry holding the persisted model is the
    Boolean field store of World.
  - Asynchronous calls into TensorFlow.js and IndexedDB are modelled by
    explicit result parameters (Bool or Except String _) saying whether
    the external call succeeds; a thrown JavaScript error is an
    Except.error value, and a try/catch boundary is a match on it.
-/

namespace StockPredictor

/-- Opaque reference to the current predictor, predictor.jsx line 26.
The mock variant models the marker object of line 144 (an object tagged
mock carrying a creation timestamp); the trained variant models a real
tf.LayersModel, identified abstractly by a natural number. -/
inductive ModelHandle
  | mock (createdAt : ℕ)
  | trained (id : ℕ)
deriving DecidableEq

/-- The React state fields of the pipeline that the claims are about
(predictor.jsx lines 25 to 28): tfAvailable, mockMode, model and
persistedModel. -/
structure AppState where
  tfAvailable : Bool
  mockMode : Bool
  model : Option ModelHandle
  persistedModel : Bool
deriving DecidableEq

/-- The app state together with the environment persisted-model entry:
store is true when IndexedDB currently holds a saved model under the key
indexeddb://lstm-stock-model. -/
structure World where
  app : AppState
  store : Bool
deriving DecidableEq

/-- Math.min over a spread array (predictor.jsx line 118), for the
nonempty lists the pipeline passes; the empty case (JavaScript Infinity)
is mapped to 0 and never reached by the claims. -/
def listMin : List ℚ → ℚ
  | [] => 0
  | h :: t => t.foldl min h

/-- Math.max over a spread array (predictor.jsx line 119); empty case as
in listMin. -/
def listMax : List ℚ → ℚ
  | [] => 0
  | h :: t => t.foldl max h

/-- The JavaScript expression max - min || 1 (predictor.jsx lines 120 and
124): the range of the series, with 0 replaced by 1. -/
def rangeOr1 (mn mx : ℚ) : ℚ := if mx - mn = 0 then 1 else mx - mn

/-- Result record of normalize (predictor.jsx line 121): the normalized
series together with the min and max statistics it was computed from. -/
structure NormResult where
  norm : List ℚ
  min : ℚ
  max : ℚ
deriving DecidableEq

/-- normalize (predictor.jsx lines 117 to 122): map each value v to
(v - min) / range where range is max - min or 1 when that is zero. -/
def normalize (arr : List ℚ) : NormResult :=
  ⟨arr.map fun v => (v - listMin arr) / rangeOr1 (listMin arr) (listMax arr),
   listMin arr, listMax arr⟩

/-- denormalize (predictor.jsx lines 123 to 126): map each value v to
v * range + min. -/
def denormalize (arr : List ℚ) (mn mx : ℚ) : List ℚ :=
  arr.map fun v => v * rangeOr1 mn mx + mn

/-- The inputs of the windowing loop of trainLSTM (predictor.jsx lines
187 to 192): for each i below norm.length - lookback, the slice of norm
from i of length lookback.  JavaScript evaluates the loop bound with
signed arithmetic, so a lookback at least the length gives zero
iterations, which truncated natural subtraction models exactly. -/
def buildXs (norm : List ℚ) (lookback : ℕ) : List (List ℚ) :=
  (List.range (norm.length - lookback)).map fun i => (norm.drop i).take lookback

/-- The targets of the same windowing loop: for each window i the value
norm at index i + lookback, always in bounds for the indices produced. -/
def buildYs (norm : List ℚ) (lookback : ℕ) : List ℚ :=
  (List.range (norm.length - lookback)).map fun i => norm.getD (i + lookback) 0

/-- Where a call to trainLSTM or predictLSTM is routed: the early return
on empty data, the mock implementation, or the live TensorFlow path. -/
inductive Route
  | noData
  | mockPath
  | livePath
deriving DecidableEq

/-- The dispatch guards at the top of trainLSTM (predictor.jsx lines 171
to 176): return early without data, use mockTrain when mockMode is set or
TensorFlow is unavailable, and the live path otherwise. -/
def trainLSTMRoute (dataLen : ℕ) (s : AppState) : Route :=
  if dataLen = 0 then Route.noData
  else if s.mockMode || !s.tfAvailable then Route.mockPath
  else Route.livePath

/-- The dispatch guards at the top of predictLSTM (predictor.jsx lines
236 to 241), same shape as the training dispatch. -/
def predictLSTMRoute (dataLen : ℕ) (s : AppState) : Route :=
  if dataLen = 0 then Route.noData
  else if s.mockMode || !s.tfAvailable then Route.mockPath
  else Route.livePath

/-- Outcome of one trainLSTM live run: the success alert or the failure
alert text produced at the catch boundary. -/
inductive TrainOutcome
  | trainedOk
  | failed (msg : String)
deriving DecidableEq

/-- The try block of the live path of trainLSTM (predictor.jsx lines 181
to 226): normalize the closes, build the windows, throw when none exist,
then construct, compile and fit the model.  The engine parameter stands
for the external model construction and fit: an Except.error models a
thrown TensorFlow error, an Except.ok the resulting trained model.  On
success the model is saved to IndexedDB when available (lines 216 to
223), a save failure being only logged, and the model becomes current. -/
def trainLSTMBody (w : World) (closes : List ℚ) (lookback : ℕ)
    (engine : Except String ℕ) (idbAvail saveOk : Bool) : Except String World :=
  let n := normalize closes
  let xs := buildXs n.norm lookback
  if xs.length = 0 then Except.error "Not enough data for the chosen lookback."
  else
    match engine with
    | Except.error m => Except.error m
    | Except.ok mid =>
        let w1 : World :=
          if idbAvail then
            if saveOk then
              { w with store := true, app := { w.app with persistedModel := true } }
            else w
          else w
        Except.ok { w1 with app := { w1.app with model := some (ModelHandle.trained mid) } }

/-- The live path of trainLSTM with its catch boundary (predictor.jsx
lines 227 to 232): any thrown error is caught and reported through the
alert Training failed prefixed with the underlying message, leaving the
state unchanged. -/
def trainLSTMLive (w : World) (closes : List ℚ) (lookback : ℕ)
    (engine : Except String ℕ) (idbAvail saveOk : Bool) : World × TrainOutcome :=
  match trainLSTMBody w closes lookback engine idbAvail saveOk with
  | Except.ok w2 => (w2, TrainOutcome.trainedOk)
  | Except.error m => (w, TrainOutcome.failed ("Training failed: " ++ m))

/-- The try block of enableTensorFlow (predictor.jsx lines 58 to 74).
The parameter importOk models whether the dynamic import of TensorFlow.js
together with tf.ready resolves; idbAvail models the IndexedDB
availability probe; loadOk models whether loading the persisted model
resolves, which also requires a stored entry.  On import success the
engine is marked available and mock mode is switched off; the inner
try/catch around the persisted-model load only logs its failure. -/
def enableTensorFlowBody (w : World) (importOk idbAvail loadOk : Bool) :
    Except String World :=
  if importOk = false then Except.error "Failed to load TensorFlow.js"
  else
    let a1 : AppState := { w.app with tfAvailable := true, mockMode := false }
    if idbAvail then
      if loadOk && w.store then
        Except.ok { w with app :=
          { a1 with model := some (ModelHandle.trained 0), persistedModel := true } }
      else Except.ok { w with app := a1 }
    else Except.ok { w with app := a1 }

/-- enableTensorFlow with its catch boundary (predictor.jsx lines 75 to
80): a failure is caught, reported by the continuing-in-mock-mode alert,
and the state is set back to tfAvailable false and mockMode true.  The
Boolean component is the user-facing report: true for the success alert,
false for the recoverable failure alert; the function is total, so no
exception propagates past the caller. -/
def enableTensorFlow (w : World) (importOk idbAvail loadOk : Bool) : World × Bool :=
  match enableTensorFlowBody w importOk idbAvail loadOk with
  | Except.ok w2 => (w2, true)
  | Except.error _ =>
      ({ w with app := { w.app with tfAvailable := false, mockMode := true } }, false)

/-- State effect of a completed mockTrain run (predictor.jsx lines 143 to
147): the current model becomes the mock marker object carrying the
completion timestamp and the persisted-model flag is cleared.  The
IndexedDB store is not touched. -/
def mockTrainModel (w : World) (now : ℕ) : World :=
  { w with app :=
    { w.app with model := some (ModelHandle.mock now), persistedModel := false } }

/-- deletePersistedModel (predictor.jsx lines 335 to 349), returning the
new world and the alert text.  The removeResult parameter models the
external tf.io.removeModel call: Except.ok when the entry is removed,
Except.error when the call rejects, in which case the catch reports the
failure and the state is unchanged. -/
def deletePersistedModel (w : World) (idbAvail : Bool)
    (removeResult : Except String Unit) : World × String :=
  if idbAvail = false then (w, "IndexedDB not available in this environment.")
  else if w.app.mockMode then (w, "No persisted real model when in mock mode.")
  else
    match removeResult with
    | Except.ok _ =>
        ({ w with store := false,
                  app := { w.app with persistedModel := false, model := none } },
         "Persisted model deleted.")
    | Except.error m =>
        (w, "Failed to delete persisted model: " ++ m)

/-- One step of the sliding-window update inside the prediction loop of
predictLSTM (predictor.jsx line 275): drop the oldest element of the
input window and append the value the model predicted for it. -/
def slideStep (f : List ℚ → ℚ) (seq : List ℚ) : List ℚ := seq.drop 1 ++ [f seq]

/-- The accumulated predictions of the rollout loop of predictLSTM
(predictor.jsx lines 269 to 279): horizon iterations, each feeding the
current window to the model f, pushing the predicted value and sliding
the window.  The model predict call is abstracted as a pure function f
from the input window to the single output value it returns. -/
def rollout (f : List ℚ → ℚ) : List ℚ → ℕ → List ℚ
  | _, 0 => []
  | seq, n + 1 => f seq :: rollout f (slideStep f seq) n

/-- The successive input windows the same loop feeds to the model, one
per iteration. -/
def rolloutWindows (f : List ℚ → ℚ) : List ℚ → ℕ → List (List ℚ)
  | _, 0 => []
  | seq, n + 1 => seq :: rolloutWindows f (slideStep f seq) n

/-- The JavaScript call norm.slice(-lookback) (predictor.jsx line 266):
the trailing lookback elements, the whole list when lookback is 0 or
exceeds the length. -/
def sliceLast (l : List ℚ) (k : ℕ) : List ℚ :=
  if k = 0 then l else l.drop (l.length - k)

/-- The prediction computation of predictLSTM after the dispatch and
model-availability preamble (predictor.jsx lines 264 to 289): normalize
the closes of the fetched points, seed the window with the trailing
lookback normalized values, run the autoregressive rollout, denormalize
the accumulated predictions with the stats of the input series, and pair
them with consecutive day numbers following the last known date. -/
def predictLSTMLive (pts : List (ℤ × ℚ)) (f : List ℚ → ℚ)
    (lookback horizon : ℕ) : List (ℤ × ℚ) :=
  let n := normalize (pts.map Prod.snd)
  let preds := rollout f (sliceLast n.norm lookback) horizon
  let dp := denormalize preds n.min n.max
  let lastDate := (pts.getLast?.map Prod.fst).getD 0
  (List.range horizon).map fun (i : ℕ) => (lastDate + (i : ℤ) + 1, dp.getD i 0)

/-- Per-epoch synthetic loss of mockTrain (predictor.jsx line 136):
Math.exp of minus the epoch index over a fifth of the epoch count, plus
Math.random times 0.05, the random draw taken from the stream r. -/
noncomputable def mockTrainLoss (epochs : ℕ) (r : ℕ → ℝ) (e : ℕ) : ℝ :=
  Real.exp (-(e : ℝ) / ((epochs : ℝ) / 5)) + r e * 0.05

/-- The full loss trace a completed mockTrain run accumulates
(predictor.jsx lines 133 to 142): one synthetic loss per epoch index
below epochs. -/
noncomputable def mockTrainTrace (epochs : ℕ) (r : ℕ → ℝ) : List ℝ :=
  (List.range epochs).map (mockTrainLoss epochs r)

/-- The successive loss histories mockTrain publishes through
setLossHistory, one after each epoch (predictor.jsx line 138): after
epoch e the published trace is the first e + 1 losses. -/
noncomputable def mockTrainStates (epochs : ℕ) (r : ℕ → ℝ) : List (List ℝ) :=
  (List.range epochs).map fun (e : ℕ) => (mockTrainTrace epochs r).take (e + 1)

/-- The synthetic prices of mockPredict (predictor.jsx lines 155 to 159):
for loop step i from 1 to horizon, the last close plus a jitter of
Math.sin of i plus Math.random times one half, scaled by one percent of
the last close.  The list index shifts the loop variable down by one. -/
noncomputable def mockPreds (last : ℝ) (r : ℕ → ℝ) (horizon : ℕ) : List ℝ :=
  (List.range horizon).map fun (i : ℕ) =>
    last + (Real.sin ((i : ℝ) + 1) + r i * 0.5) * (last * 0.01)

/-- mockPredict (predictor.jsx lines 152 to 167): with no fetched data
the function returns before setPredictions, leaving the previous
predictions old in place; otherwise it pairs the synthetic prices with
the consecutive day numbers after the last known date. -/
noncomputable def mockPredict (pts : List (ℤ × ℝ)) (old : List (ℤ × ℝ))
    (r : ℕ → ℝ) (horizon : ℕ) : List (ℤ × ℝ) :=
  match pts.getLast? with
  | none => old
  | some lastPt =>
      (List.range horizon).map fun (i : ℕ) =>
        (lastPt.1 + (i : ℤ) + 1, (mockPreds lastPt.2 r horizon).getD i 0)

section Lemmas

theorem rangeOr1_ne_zero (mn mx : ℚ) : rangeOr1 mn mx ≠ 0 := by
  rcases eq_or_ne (mx - mn) 0 with h | h
  · simp [rangeOr1, h]
  · simp [rangeOr1, h]

theorem foldl_min_all_eq (c : ℚ) (t : List ℚ) (h : ∀ v ∈ t, v = c) :
    t.foldl min c = c := by
  induction t with
  | nil => rfl
  | cons a t ih =>
    have ha : a = c := h a (by simp)
    rw [List.foldl_cons, ha, min_self]
    exact ih fun v hv => h v (by simp [hv])

theorem foldl_max_all_eq (c : ℚ) (t : List ℚ) (h : ∀ v ∈ t, v = c) :
    t.foldl max c = c := by
  induction t with
  | nil => rfl
  | cons a t ih =>
    have ha : a = c := h a (by simp)
    rw [List.foldl_cons, ha, max_self]
    exact ih fun v hv => h v (by simp [hv])

theorem listMin_all_eq (x : List ℚ) (c : ℚ) (hx : x ≠ []) (h : ∀ v ∈ x, v = c) :
    listMin x = c := by
  cases x with
  | nil => exact absurd rfl hx
  | cons a t =>
    have ha : a = c := h a (by simp)
    rw [listMin, ha]
    exact foldl_min_all_eq c t fun v hv => h v (by simp [hv])

theorem listMax_all_eq (x : List ℚ) (c : ℚ) (hx : x ≠ []) (h : ∀ v ∈ x, v = c) :
    listMax x = c := by
  cases x with
  | nil => exact absurd rfl hx
  | cons a t =>
    have ha : a = c := h a (by simp)
    rw [listMax, ha]
    exact foldl_max_all_eq c t fun v hv => h v (by simp [hv])

theorem getD_range_map {α : Type} (f : ℕ → α) (n i : ℕ) (d : α) (h : i < n) :
    ((List.range n).map f).getD i d = f i := by
  rw [List.getD_eq_getElem?_getD, List.getElem?_map, List.getElem?_range h]
  rfl

theorem normalize_norm_length (arr : List ℚ) : (normalize arr).norm.length = arr.length := by
  simp [normalize]

theorem rollout_length (f : List ℚ → ℚ) : ∀ (n : ℕ) (seq : List ℚ),
    (rollout f seq n).length = n := by
  intro n
  induction n with
  | zero => intro seq; rfl
  | succ m ih => intro seq; simp [rollout, ih]

theorem rolloutWindows_length (f : List ℚ → ℚ) : ∀ (n : ℕ) (seq : List ℚ),
    (rolloutWindows f seq n).length = n := by
  intro n
  induction n with
  | zero => intro seq; rfl
  | succ m ih => intro seq; simp [rolloutWindows, ih]

theorem rollout_eq_map_windows (f : List ℚ → ℚ) : ∀ (n : ℕ) (seq : List ℚ),
    rollout f seq n = (rolloutWindows f seq n).map f := by
  intro n
  induction n with
  | zero => intro seq; rfl
  | succ m ih => intro seq; simp [rollout, rolloutWindows, ih]

theorem slideStep_length (f : List ℚ → ℚ) (seq : List ℚ) (h : 1 ≤ seq.length) :
    (slideStep f seq).length = seq.length := by
  simp only [slideStep, List.length_append, List.length_drop, List.length_singleton]
  omega

theorem rolloutWindows_mem_length (f : List ℚ → ℚ) (L : ℕ) (hL : 1 ≤ L) :
    ∀ (n : ℕ) (seq : List ℚ), seq.length = L →
      ∀ win ∈ rolloutWindows f seq n, win.length = L := by
  intro n
  induction n with
  | zero =>
    intro seq hs win hw
    simp [rolloutWindows] at hw
  | succ m ih =>
    intro seq hs win hw
    simp only [rolloutWindows, List.mem_cons] at hw
    rcases hw with rfl | hw
    · exact hs
    · exact ih (slideStep f seq) (by rw [slideStep_length f seq (by omega), hs]) win hw

theorem rolloutWindows_getD_succ (f : List ℚ → ℚ) :
    ∀ (n i : ℕ) (seq : List ℚ), i + 1 < n →
      (rolloutWindows f seq n).getD (i + 1) [] =
        slideStep f ((rolloutWindows f seq n).getD i []) := by
  intro n
  induction n with
  | zero => intro i seq h; omega
  | succ m ih =>
    intro i seq h
    cases i with
    | zero =>
      cases m with
      | zero => omega
      | succ k =>
        simp [rolloutWindows, List.getD_cons_succ, List.getD_cons_zero]
    | succ j =>
      have hrec := ih j (slideStep f seq) (by omega)
      simp only [rolloutWindows, List.getD_cons_succ]
      exact hrec

theorem sliceLast_length (l : List ℚ) (k : ℕ) (hk : 1 ≤ k) (hkl : k ≤ l.length) :
    (sliceLast l k).length = k := by
  rw [sliceLast, if_neg (by omega)]
  simp only [List.length_drop]
  omega

end Lemmas

/-- Claim C1: for every non-empty finite sequence x, denormalizing the
normalized sequence with the stats produced by normalize returns x
exactly, and for a degenerate sequence whose values are all equal the
range is substituted with 1, so no division by zero occurs. -/
theorem claim_C1_normalize_roundtrip (x : List ℚ) (hx : x ≠ []) :
    denormalize (normalize x).norm (normalize x).min (normalize x).max = x ∧
    (∀ c : ℚ, (∀ v ∈ x, v = c) →
      rangeOr1 (normalize x).min (normalize x).max = 1) := by
  constructor
  · simp only [normalize, denormalize, List.map_map]
    have hfun : ((fun v => v * rangeOr1 (listMin x) (listMax x) + listMin x) ∘
        fun v => (v - listMin x) / rangeOr1 (listMin x) (listMax x)) = id := by
      funext v
      simp only [Function.comp_apply, id_eq]
      rw [div_mul_cancel₀ _ (rangeOr1_ne_zero (listMin x) (listMax x)),
        sub_add_cancel]
    rw [hfun, List.map_id]
  · intro c hc
    have h1 : (normalize x).min = listMin x := rfl
    have h2 : (normalize x).max = listMax x := rfl
    rw [h1, h2, listMin_all_eq x c hx hc, listMax_all_eq x c hx hc]
    simp [rangeOr1]

/-- Witness for C1 at the concrete series 3, 7, 7. -/
theorem claim_C1_normalize_roundtrip_witness :
    (([3, 7, 7] : List ℚ) ≠ []) ∧
    (denormalize (normalize [3, 7, 7]).norm (normalize [3, 7, 7]).min
        (normalize [3, 7, 7]).max = [3, 7, 7] ∧
      (∀ c : ℚ, (∀ v ∈ ([3, 7, 7] : List ℚ), v = c) →
        rangeOr1 (normalize [3, 7, 7]).min (normalize [3, 7, 7]).max = 1)) :=
  ⟨by decide, claim_C1_normalize_roundtrip [3, 7, 7] (by decide)⟩

/-- Claim C2: for a normalized series of length N and lookback L at least
1, the windowing step builds exactly max 0 (N - L) windows, each input of
length L with target norm at i + L for window i; when N is at most L it
builds zero windows, and the live training run fails with the
insufficient data error rather than silently doing nothing. -/
theorem claim_C2_windowing (norm : List ℚ) (L : ℕ) (hL : 1 ≤ L) :
    ((buildXs norm L).length : ℤ) = max 0 ((norm.length : ℤ) - (L : ℤ)) ∧
    (buildYs norm L).length = (buildXs norm L).length ∧
    (∀ i, i < (buildXs norm L).length →
      ((buildXs norm L).getD i []).length = L ∧
      (buildYs norm L).getD i 0 = norm.getD (i + L) 0) ∧
    (norm.length ≤ L → buildXs norm L = []) ∧
    (∀ (w : World) (closes : List ℚ) (engine : Except String ℕ)
        (idbAvail saveOk : Bool), closes.length ≤ L →
      trainLSTMLive w closes L engine idbAvail saveOk =
        (w, TrainOutcome.failed
          "Training failed: Not enough data for the chosen lookback.")) := by
  have hlen : (buildXs norm L).length = norm.length - L := by
    simp [buildXs]
  refine ⟨?_, ?_, ?_, ?_, ?_⟩
  · rw [hlen]
    rcases le_or_lt L norm.length with h | h
    · rw [max_eq_right (by omega)]
      omega
    · rw [max_eq_left (by omega)]
      omega
  · simp [buildXs, buildYs]
  · intro i hi
    rw [hlen] at hi
    constructor
    · rw [buildXs, getD_range_map _ _ _ _ hi]
      simp only [List.length_take, List.length_drop]
      omega
    · rw [buildYs, getD_range_map _ _ _ _ hi]
  · intro h
    simp [buildXs, Nat.sub_eq_zero_of_le h]
  · intro w closes engine idbAvail saveOk hle
    have hx : (buildXs (normalize closes).norm L).length = 0 := by
      simp [buildXs, normalize_norm_length, Nat.sub_eq_zero_of_le hle]
    simp only [trainLSTMLive, trainLSTMBody, hx, if_pos rfl]
    rfl

/-- Witness for C2 at the concrete normalized series 0, 1, 1/2 with
lookback 2, also exercising the insufficient data path of trainLSTMLive
through the final component. -/
theorem claim_C2_windowing_witness :
    (1 ≤ 2) ∧
    (((buildXs [0, 1, 1/2] 2).length : ℤ) =
        max 0 ((([0, 1, 1/2] : List ℚ).length : ℤ) - (2 : ℤ)) ∧
      (buildYs [0, 1, 1/2] 2).length = (buildXs [0, 1, 1/2] 2).length ∧
      (∀ i, i < (buildXs [0, 1, 1/2] 2).length →
        ((buildXs [0, 1, 1/2] 2).getD i []).length = 2 ∧
        (buildYs [0, 1, 1/2] 2).getD i 0 = ([0, 1, 1/2] : List ℚ).getD (i + 2) 0) ∧
      (([0, 1, 1/2] : List ℚ).length ≤ 2 → buildXs [0, 1, 1/2] 2 = []) ∧
      (∀ (w : World) (closes : List ℚ) (engine : Except String ℕ)
          (idbAvail saveOk : Bool), closes.length ≤ 2 →
        trainLSTMLive w closes 2 engine idbAvail saveOk =
          (w, TrainOutcome.failed
            "Training failed: Not enough data for the chosen lookback."))) :=
  ⟨by decide, claim_C2_windowing [0, 1, 1/2] 2 (by decide)⟩

/-- Claim C4: once past the empty-data early return, both trainLSTM and
predictLSTM dispatch to the mock implementation exactly when mockMode is
set or TensorFlow is unavailable, and to the live implementation
otherwise. -/
theorem claim_C4_dispatch (dataLen : ℕ) (s : AppState) (h : 0 < dataLen) :
    (trainLSTMRoute dataLen s = Route.mockPath ↔
      (s.mockMode = true ∨ s.tfAvailable = false)) ∧
    (trainLSTMRoute dataLen s = Route.livePath ↔
      (s.mockMode = false ∧ s.tfAvailable = true)) ∧
    predictLSTMRoute dataLen s = trainLSTMRoute dataLen s := by
  rcases s with ⟨tf, mock, model, pers⟩
  have hd : ¬(dataLen = 0) := by omega
  cases tf <;> cases mock <;>
    simp [trainLSTMRoute, predictLSTMRoute, hd]

/-- Witness for C4 at data length 1 and a live-ready state. -/
theorem claim_C4_dispatch_witness :
    0 < 1 ∧
    ((trainLSTMRoute 1 ⟨true, false, none, false⟩ = Route.mockPath ↔
        ((⟨true, false, none, false⟩ : AppState).mockMode = true ∨
          (⟨true, false, none, false⟩ : AppState).tfAvailable = false)) ∧
      (trainLSTMRoute 1 ⟨true, false, none, false⟩ = Route.livePath ↔
        ((⟨true, false, none, false⟩ : AppState).mockMode = false ∧
          (⟨true, false, none, false⟩ : AppState).tfAvailable = true)) ∧
      predictLSTMRoute 1 ⟨true, false, none, false⟩ =
        trainLSTMRoute 1 ⟨true, false, none, false⟩) :=
  ⟨by decide, claim_C4_dispatch 1 ⟨true, false, none, false⟩ (by decide)⟩

/-- Claim C6: any failure of the live training run, whether the
insufficient data throw or a failure of model construction or fit, is
caught at the operation boundary and reported, the state including the
previously held model is left unchanged, and the insufficient data report
is a distinct message from every other failure report. -/
theorem claim_C6_training_errors (w : World) (closes : List ℚ) (L : ℕ)
    (engine : Except String ℕ) (idbAvail saveOk : Bool) :
    ((buildXs (normalize closes).norm L).length = 0 →
      trainLSTMLive w closes L engine idbAvail saveOk =
        (w, TrainOutcome.failed
          "Training failed: Not enough data for the chosen lookback.")) ∧
    (∀ m, engine = Except.error m →
      (buildXs (normalize closes).norm L).length ≠ 0 →
      trainLSTMLive w closes L engine idbAvail saveOk =
        (w, TrainOutcome.failed ("Training failed: " ++ m))) ∧
    (∀ m : String, m ≠ "Not enough data for the chosen lookback." →
      ("Training failed: " ++ m : String) ≠
        "Training failed: Not enough data for the chosen lookback.") := by
  refine ⟨?_, ?_, ?_⟩
  · intro hx
    simp only [trainLSTMLive, trainLSTMBody, hx, if_pos rfl]
    rfl
  · intro m hm hx
    simp only [trainLSTMLive, trainLSTMBody, hm, if_neg hx]
  · intro m hm heq
    apply hm
    have h2 : ("Training failed: Not enough data for the chosen lookback." : String) =
        "Training failed: " ++ "Not enough data for the chosen lookback." := rfl
    rw [h2] at heq
    have hd := congrArg String.data heq
    rw [String.data_append, String.data_append] at hd
    exact String.ext (List.append_cancel_left hd)

/-- Witness for C6: a concrete engine failure with a one-point series and
lookback 5 reports the insufficient data message and leaves the world
unchanged. -/
theorem claim_C6_training_errors_witness :
    trainLSTMLive ⟨⟨true, false, some (ModelHandle.trained 3), true⟩, true⟩
        [1] 5 (Except.error "boom") true true =
      (⟨⟨true, false, some (ModelHandle.trained 3), true⟩, true⟩,
        TrainOutcome.failed
          "Training failed: Not enough data for the chosen lookback.") :=
  (claim_C6_training_errors ⟨⟨true, false, some (ModelHandle.trained 3), true⟩, true⟩
    [1] 5 (Except.error "boom") true true).1 (by decide)

/-- Claim C5: when the enable-live-engine action fails it leaves mockMode
true and tfAvailable false and returns the recoverable failure report
instead of raising; the state is Live (mockMode false) after the call
only when the action reported success. -/
theorem claim_C5_enable_fallback (w : World) (importOk idbAvail loadOk : Bool) :
    (importOk = false →
      enableTensorFlow w importOk idbAvail loadOk =
        ({ w with app := { w.app with tfAvailable := false, mockMode := true } },
          false)) ∧
    ((enableTensorFlow w importOk idbAvail loadOk).1.app.mockMode = false →
      (enableTensorFlow w importOk idbAvail loadOk).2 = true) ∧
    ((enableTensorFlow w importOk idbAvail loadOk).2 = false →
      (enableTensorFlow w importOk idbAvail loadOk).1.app.mockMode = true ∧
      (enableTensorFlow w importOk idbAvail loadOk).1.app.tfAvailable = false) := by
  rcases w with ⟨⟨tf, mock, model, pers⟩, store⟩
  cases importOk <;> cases idbAvail <;> cases loadOk <;> cases store <;>
    simp [enableTensorFlow, enableTensorFlowBody]

/-- Witness for C5 at a concrete world where the import fails. -/
theorem claim_C5_enable_fallback_witness :
    enableTensorFlow ⟨⟨false, false, none, false⟩, true⟩ false true true =
      (⟨⟨false, true, none, false⟩, true⟩, false) :=
  (claim_C5_enable_fallback ⟨⟨false, false, none, false⟩, true⟩ false true true).1 rfl

/-- Claim C9: deletePersistedModel reports storage unavailable when
IndexedDB does not exist, leaving the world including the current model
untouched; reports nothing to delete in mock mode, again leaving the
world untouched; and only otherwise removes the persisted entry and
clears the current model and the persisted flag. -/
theorem claim_C9_delete_persisted (w : World) (idbAvail : Bool)
    (removeResult : Except String Unit) :
    (idbAvail = false →
      deletePersistedModel w idbAvail removeResult =
        (w, "IndexedDB not available in this environment.")) ∧
    (idbAvail = true → w.app.mockMode = true →
      deletePersistedModel w idbAvail removeResult =
        (w, "No persisted real model when in mock mode.")) ∧
    (idbAvail = true → w.app.mockMode = false → removeResult = Except.ok () →
      deletePersistedModel w idbAvail removeResult =
        ({ w with store := false,
                  app := { w.app with persistedModel := false, model := none } },
         "Persisted model deleted.")) := by
  refine ⟨?_, ?_, ?_⟩
  · intro h
    simp [deletePersistedModel, h]
  · intro h hm
    simp [deletePersistedModel, h, hm]
  · intro h hm hr
    simp [deletePersistedModel, h, hm, hr]

/-- Witness for C9: deleting with no durable storage returns the storage
unavailable report and leaves a held trained model untouched. -/
theorem claim_C9_delete_persisted_witness :
    deletePersistedModel ⟨⟨true, false, some (ModelHandle.trained 7), true⟩, true⟩
        false (Except.ok ()) =
      (⟨⟨true, false, some (ModelHandle.trained 7), true⟩, true⟩,
       "IndexedDB not available in this environment.") :=
  (claim_C9_delete_persisted ⟨⟨true, false, some (ModelHandle.trained 7), true⟩, true⟩
    false (Except.ok ())).1 rfl

/-- Claim C10: a completed mockTrain run replaces the current model with
the mock marker carrying the run timestamp and clears the persisted
flag, even when a real trained model was held and an entry is persisted
in storage; the storage entry itself survives, so the cleared flag no
longer reflects it. -/
theorem claim_C10_mocktrain_clobbers (w : World) (now id : ℕ)
    (hmodel : w.app.model = some (ModelHandle.trained id))
    (hflag : w.app.persistedModel = true) (hstore : w.store = true) :
    (mockTrainModel w now).app.model = some (ModelHandle.mock now) ∧
    (mockTrainModel w now).app.persistedModel = false ∧
    (mockTrainModel w now).store = true := by
  refine ⟨rfl, rfl, ?_⟩
  simpa [mockTrainModel] using hstore

/-- Witness for C10 at a concrete world holding a persisted trained
model. -/
theorem claim_C10_mocktrain_clobbers_witness :
    (⟨⟨true, false, some (ModelHandle.trained 3), true⟩, true⟩ : World).app.model =
        some (ModelHandle.trained 3) ∧
    ((mockTrainModel ⟨⟨true, false, some (ModelHandle.trained 3), true⟩, true⟩ 42).app.model =
        some (ModelHandle.mock 42) ∧
      (mockTrainModel ⟨⟨true, false, some (ModelHandle.trained 3), true⟩, true⟩ 42).app.persistedModel =
        false ∧
      (mockTrainModel ⟨⟨true, false, some (ModelHandle.trained 3), true⟩, true⟩ 42).store = true) :=
  ⟨by decide,
    claim_C10_mocktrain_clobbers ⟨⟨true, false, some (ModelHandle.trained 3), true⟩, true⟩
      42 3 (by decide) (by decide) (by decide)⟩

/-- Claim C3: for every horizon H at least 1, live prediction performs
exactly H sequential rollout steps; every window fed to the model has the
lookback length; the accumulated predictions are exactly the model
applied to the successive windows; each next window is the previous one
with its oldest element dropped and the predicted value appended; and the
final forecast has length H, each point carrying the prediction
denormalized with the stats of the input series and a date that is the
corresponding number of days after the last known date. -/
theorem claim_C3_autoregressive_rollout (pts : List (ℤ × ℚ)) (f : List ℚ → ℚ)
    (L H : ℕ) (hpts : pts ≠ []) (hL : 1 ≤ L) (hLN : L ≤ pts.length) (hH : 1 ≤ H) :
    (predictLSTMLive pts f L H).length = H ∧
    (rolloutWindows f (sliceLast (normalize (pts.map Prod.snd)).norm L) H).length = H ∧
    (∀ win ∈ rolloutWindows f (sliceLast (normalize (pts.map Prod.snd)).norm L) H,
      win.length = L) ∧
    rollout f (sliceLast (normalize (pts.map Prod.snd)).norm L) H =
      (rolloutWindows f (sliceLast (normalize (pts.map Prod.snd)).norm L) H).map f ∧
    (∀ i, i + 1 < H →
      (rolloutWindows f (sliceLast (normalize (pts.map Prod.snd)).norm L) H).getD
          (i + 1) [] =
        slideStep f
          ((rolloutWindows f (sliceLast (normalize (pts.map Prod.snd)).norm L) H).getD
            i [])) ∧
    (∀ i, i < H →
      (predictLSTMLive pts f L H).getD i (0, 0) =
        ((pts.getLast?.map Prod.fst).getD 0 + (i : ℤ) + 1,
          (denormalize
              (rollout f (sliceLast (normalize (pts.map Prod.snd)).norm L) H)
              (normalize (pts.map Prod.snd)).min
              (normalize (pts.map Prod.snd)).max).getD i 0)) := by
  have hseq : (sliceLast (normalize (pts.map Prod.snd)).norm L).length = L := by
    apply sliceLast_length _ _ hL
    rw [normalize_norm_length, List.length_map]
    exact hLN
  refine ⟨?_, rolloutWindows_length f H _, ?_, rollout_eq_map_windows f H _,
    fun i hi => rolloutWindows_getD_succ f H i _ hi, ?_⟩
  · simp [predictLSTMLive]
  · exact rolloutWindows_mem_length f L hL H _ hseq
  · intro i hi
    simp only [predictLSTMLive]
    rw [getD_range_map _ _ _ _ hi]

/-- Witness for C3 at a concrete two-point series with lookback 1,
horizon 2 and the constant-zero model. -/
theorem claim_C3_autoregressive_rollout_witness :
    (([((0 : ℤ), (1 : ℚ)), (1, 2)] : List (ℤ × ℚ)) ≠ [] ∧ 1 ≤ 1 ∧
      1 ≤ ([((0 : ℤ), (1 : ℚ)), (1, 2)] : List (ℤ × ℚ)).length ∧ 1 ≤ 2) ∧
    ((predictLSTMLive [((0 : ℤ), (1 : ℚ)), (1, 2)] (fun _ => 0) 1 2).length = 2 ∧
      (rolloutWindows (fun _ => 0)
          (sliceLast (normalize ([((0 : ℤ), (1 : ℚ)), (1, 2)].map Prod.snd)).norm 1)
          2).length = 2 ∧
      (∀ win ∈ rolloutWindows (fun _ => 0)
          (sliceLast (normalize ([((0 : ℤ), (1 : ℚ)), (1, 2)].map Prod.snd)).norm 1) 2,
        win.length = 1) ∧
      rollout (fun _ => 0)
          (sliceLast (normalize ([((0 : ℤ), (1 : ℚ)), (1, 2)].map Prod.snd)).norm 1) 2 =
        (rolloutWindows (fun _ => 0)
            (sliceLast (normalize ([((0 : ℤ), (1 : ℚ)), (1, 2)].map Prod.snd)).norm 1)
            2).map (fun _ => 0) ∧
      (∀ i, i + 1 < 2 →
        (rolloutWindows (fun _ => 0)
            (sliceLast (normalize ([((0 : ℤ), (1 : ℚ)), (1, 2)].map Prod.snd)).norm 1)
            2).getD (i + 1) [] =
          slideStep (fun _ => 0)
            ((rolloutWindows (fun _ => 0)
                (sliceLast (normalize ([((0 : ℤ), (1 : ℚ)), (1, 2)].map Prod.snd)).norm 1)
                2).getD i [])) ∧
      (∀ i, i < 2 →
        (predictLSTMLive [((0 : ℤ), (1 : ℚ)), (1, 2)] (fun _ => 0) 1 2).getD i (0, 0) =
          ((([((0 : ℤ), (1 : ℚ)), (1, 2)] : List (ℤ × ℚ)).getLast?.map Prod.fst).getD 0 +
              (i : ℤ) + 1,
            (denormalize
                (rollout (fun _ => 0)
                  (sliceLast (normalize ([((0 : ℤ), (1 : ℚ)), (1, 2)].map Prod.snd)).norm 1)
                  2)
                (normalize ([((0 : ℤ), (1 : ℚ)), (1, 2)].map Prod.snd)).min
                (normalize ([((0 : ℤ), (1 : ℚ)), (1, 2)].map Prod.snd)).max).getD i 0))) :=
  ⟨⟨by decide, by decide, by decide, by decide⟩,
    claim_C3_autoregressive_rollout [((0 : ℤ), (1 : ℚ)), (1, 2)] (fun _ => 0) 1 2
      (by decide) (by decide) (by decide) (by decide)⟩

/-- Claim C7: for every epoch count E at least 1 and every random stream
bounded in the unit interval, mockTrain accumulates a loss trace of
length exactly E whose entry for epoch e is the exponential decay term
plus a noise value in the interval from 0 inclusive to 0.05 exclusive,
and the successively published trace lengths grow by one per epoch, so
they never decrease during the run. -/
theorem claim_C7_mocktrain_trace (E : ℕ) (r : ℕ → ℝ) (hE : 1 ≤ E)
    (hr : ∀ i, 0 ≤ r i ∧ r i < 1) :
    (mockTrainTrace E r).length = E ∧
    (∀ e, e < E → ∃ u, 0 ≤ u ∧ u < 0.05 ∧
      (mockTrainTrace E r).getD e 0 =
        Real.exp (-(e : ℝ) / ((E : ℝ) / 5)) + u) ∧
    (mockTrainStates E r).length = E ∧
    (∀ e, e < E → ((mockTrainStates E r).getD e []).length = e + 1) ∧
    (∀ i j, i ≤ j → j < E →
      ((mockTrainStates E r).getD i []).length ≤
        ((mockTrainStates E r).getD j []).length) := by
  have hlen : (mockTrainTrace E r).length = E := by simp [mockTrainTrace]
  have hstate : ∀ e, e < E → ((mockTrainStates E r).getD e []).length = e + 1 := by
    intro e he
    rw [mockTrainStates, getD_range_map _ _ _ _ he, List.length_take, hlen]
    omega
  refine ⟨hlen, ?_, by simp [mockTrainStates], hstate, ?_⟩
  · intro e he
    refine ⟨r e * 0.05, mul_nonneg (hr e).1 (by norm_num), ?_, ?_⟩
    · calc r e * 0.05 < 1 * 0.05 :=
            mul_lt_mul_of_pos_right (hr e).2 (by norm_num)
        _ = 0.05 := by norm_num
    · rw [mockTrainTrace, getD_range_map _ _ _ _ he, mockTrainLoss]
  · intro i j hij hj
    rw [hstate i (by omega), hstate j hj]
    omega

/-- Witness for C7 at five epochs and the zero random stream. -/
theorem claim_C7_mocktrain_trace_witness :
    ((1 ≤ 5) ∧ (∀ _i : ℕ, (0 : ℝ) ≤ 0 ∧ (0 : ℝ) < 1)) ∧
    ((mockTrainTrace 5 (fun _ => 0)).length = 5 ∧
      (∀ e, e < 5 → ∃ u, 0 ≤ u ∧ u < 0.05 ∧
        (mockTrainTrace 5 (fun _ => 0)).getD e 0 =
          Real.exp (-(e : ℝ) / (((5 : ℕ) : ℝ) / 5)) + u) ∧
      (mockTrainStates 5 (fun _ => 0)).length = 5 ∧
      (∀ e, e < 5 → ((mockTrainStates 5 (fun _ => 0)).getD e []).length = e + 1) ∧
      (∀ i j, i ≤ j → j < 5 →
        ((mockTrainStates 5 (fun _ => 0)).getD i []).length ≤
          ((mockTrainStates 5 (fun _ => 0)).getD j []).length)) :=
  ⟨⟨by decide, fun _i => ⟨le_refl 0, zero_lt_one⟩⟩,
    claim_C7_mocktrain_trace 5 (fun _ => 0) (by decide)
      (fun _i => ⟨le_refl 0, zero_lt_one⟩)⟩

/-- Claim C8: with no fetched data mockPredict is a no-op leaving the
previous predictions in place; otherwise, for horizon H at least 1 and a
random stream bounded in the unit interval, it yields exactly H forecast
points, point i carrying the last close plus a jitter of Math.sin of
i + 1 plus a noise value in the interval from 0 inclusive to 0.5
exclusive, scaled by one percent of the last close, dated i + 1 days
after the last known date; successive dates differ by exactly one day, so
they are strictly increasing and consecutive. -/
theorem claim_C8_mockpredict (pts old : List (ℤ × ℝ)) (r : ℕ → ℝ) (H : ℕ) :
    (pts = [] → mockPredict pts old r H = old) ∧
    (∀ D P, pts.getLast? = some (D, P) → 1 ≤ H → (∀ i, 0 ≤ r i ∧ r i < 1) →
      (mockPredict pts old r H).length = H ∧
      (∀ i, i < H → ∃ u, 0 ≤ u ∧ u < 0.5 ∧
        (mockPredict pts old r H).getD i (0, 0) =
          (D + (i : ℤ) + 1,
            P + (Real.sin ((i : ℝ) + 1) + u) * (P * 0.01))) ∧
      (∀ i, i + 1 < H →
        ((mockPredict pts old r H).getD (i + 1) (0, 0)).1 =
          ((mockPredict pts old r H).getD i (0, 0)).1 + 1)) := by
  constructor
  · intro h
    subst h
    rfl
  · intro D P hlast hH hr
    have hm : mockPredict pts old r H =
        (List.range H).map fun (i : ℕ) =>
          (D + (i : ℤ) + 1, (mockPreds P r H).getD i 0) := by
      rw [mockPredict.eq_def, hlast]
    refine ⟨?_, ?_, ?_⟩
    · rw [hm]
      simp
    · intro i hi
      refine ⟨r i * 0.5, mul_nonneg (hr i).1 (by norm_num), ?_, ?_⟩
      · calc r i * 0.5 < 1 * 0.5 :=
              mul_lt_mul_of_pos_right (hr i).2 (by norm_num)
          _ = 0.5 := by norm_num
      · rw [hm, getD_range_map _ _ _ _ hi, mockPreds, getD_range_map _ _ _ _ hi]
    · intro i hi
      rw [hm, getD_range_map _ _ _ _ hi,
        getD_range_map _ _ _ _ (by omega : i < H)]
      push_cast
      ring

/-- Witness for C8 at a one-point series with close 100, horizon 1 and
the zero random stream. -/
theorem claim_C8_mockpredict_witness :
    (([((0 : ℤ), (100 : ℝ))].getLast? = some ((0 : ℤ), (100 : ℝ))) ∧ 1 ≤ 1 ∧
      (∀ _i : ℕ, (0 : ℝ) ≤ 0 ∧ (0 : ℝ) < 1)) ∧
    ((mockPredict [((0 : ℤ), (100 : ℝ))] [] (fun _ => 0) 1).length = 1 ∧
      (∀ i, i < 1 → ∃ u, 0 ≤ u ∧ u < 0.5 ∧
        (mockPredict [((0 : ℤ), (100 : ℝ))] [] (fun _ => 0) 1).getD i (0, 0) =
          ((0 : ℤ) + (i : ℤ) + 1,
            (100 : ℝ) + (Real.sin ((i : ℝ) + 1) + u) * ((100 : ℝ) * 0.01))) ∧
      (∀ i, i + 1 < 1 →
        ((mockPredict [((0 : ℤ), (100 : ℝ))] [] (fun _ => 0) 1).getD (i + 1) (0, 0)).1 =
          ((mockPredict [((0 : ℤ), (100 : ℝ))] [] (fun _ => 0) 1).getD i (0, 0)).1 + 1)) :=
  ⟨⟨rfl, by decide, fun _i => ⟨le_refl 0, zero_lt_one⟩⟩,
    (claim_C8_mockpredict [((0 : ℤ), (100 : ℝ))] [] (fun _ => 0) 1).2 0 100 rfl
      (by decide) (fun _i => ⟨le_refl 0, zero_lt_one⟩)⟩

end StockPredictor
